import Mathlib

/-!
Verification development for the `asyncio_http_server` repository.

The repository has three source files:
* `lib/utils.py` — two exception-suppression context managers;
* `lib/log_handling.py` — the `LogManager` configuration layer over the
  standard `logging` module;
* `asyncio_server_test.py` — a one-route HTTP echo server.

The Python code is shallowly embedded below.  Mutable module/class state
(the `logging` module's level registries, the logger registry with each
logger's handler list, and `LogManager`'s process-wide instance registry)
is modelled by an explicit state record `GState`; every method becomes a
function from states to states.  A raised Python exception is modelled by
an `Option PyExc` component of the result: the state component records the
mutations performed before the raise (Python exceptions do not roll back).
-/

namespace AsyncioHttp

/-! ## Exceptions (`lib/utils.py`)

Python class objects are modelled by an enumeration of the classes that
occur in (or are relevant to) this repository, with their `Exception` /
`BaseException` ancestry.  `KeyboardInterrupt` derives from
`BaseException` but not from `Exception`; the two custom classes derive
from `Exception`. -/

inductive ExcClass where
  | baseExceptionC
  | exceptionC
  | inputValidationExceptionC
  | fatalRuntimeExceptionC
  | keyboardInterruptC
  | valueErrorC
deriving DecidableEq

/-- The method-resolution ancestry of each class (the class itself included). -/
def ExcClass.ancestors : ExcClass → List ExcClass
  | .baseExceptionC => [.baseExceptionC]
  | .exceptionC => [.exceptionC, .baseExceptionC]
  | .keyboardInterruptC => [.keyboardInterruptC, .baseExceptionC]
  | .inputValidationExceptionC => [.inputValidationExceptionC, .exceptionC, .baseExceptionC]
  | .fatalRuntimeExceptionC => [.fatalRuntimeExceptionC, .exceptionC, .baseExceptionC]
  | .valueErrorC => [.valueErrorC, .exceptionC, .baseExceptionC]

def ExcClass.isSubclassOf (c d : ExcClass) : Bool :=
  c.ancestors.contains d

/-- A raised Python exception value: its class and its message. -/
structure PyExc where
  cls : ExcClass
  msg : String
deriving DecidableEq

/-- `isinstance(e, classes)`, as used by an `except (C1, C2, ...)` clause:
true when the exception's class is a subclass of one of the listed classes. -/
def pyIsInstance (e : PyExc) (classes : List ExcClass) : Bool :=
  classes.any (fun c => e.cls.isSubclassOf c)

/-- A Python code block over mutable state `σ` that either finishes
normally (`none`) or raises (`some e`); the state component carries the
mutations performed up to that point. -/
def PyAction (σ : Type u) : Type u := σ → σ × Option PyExc

/-- `utils.ignore_exceptions(*exception_classes)`: run the body; an
exception that the tuple `exception_classes` catches is swallowed, any
other exception propagates. -/
def ignore_exceptions (classes : List ExcClass) (body : PyAction σ) : PyAction σ :=
  fun s =>
    match body s with
    | (s1, none) => (s1, none)
    | (s1, some e) => if pyIsInstance e classes then (s1, none) else (s1, some e)

/-- `utils.ignore_exceptions_except(*exception_classes)`: the body is run
under `except Exception as e`, and `e` is re-raised exactly when
`isinstance(e, exception_classes)`.  An exception that does not derive
from `Exception` is not caught by the clause at all and propagates. -/
def ignore_exceptions_except (classes : List ExcClass) (body : PyAction σ) : PyAction σ :=
  fun s =>
    match body s with
    | (s1, none) => (s1, none)
    | (s1, some e) =>
      if e.cls.isSubclassOf .exceptionC then
        (if pyIsInstance e classes then (s1, some e) else (s1, none))
      else (s1, some e)

/-! ## Association lists

Python `dict`s are modelled by association lists.  Assignment `d[k] = v`
overwrites in place when the key is present and appends otherwise
(matching insertion-order semantics). -/

def alookup [DecidableEq α] (k : α) : List (α × β) → Option β
  | [] => none
  | (a, b) :: t => if a = k then some b else alookup k t

def acontains [DecidableEq α] (k : α) (l : List (α × β)) : Bool :=
  (alookup k l).isSome

def aset [DecidableEq α] (l : List (α × β)) (k : α) (v : β) : List (α × β) :=
  if acontains k l then l.map (fun p => if p.1 = k then (k, v) else p) else l ++ [(k, v)]

/-! ## The `logging` module state and `LogManager` (`lib/log_handling.py`) -/

/-- The sink of a handler: `logging.StreamHandler` on an object with a
`write` attribute, `handlers.TimedRotatingFileHandler` or
`logging.FileHandler` on a path. -/
inductive HKind where
  | stream (dest : String)
  | timedRotatingFile (path : String)
  | file (path : String)
deriving DecidableEq

/-- The formatter class attached to a handler: plain `logging.Formatter`,
or one of the two `create_formatter` products used by the module (the
red-colouring formatter, the carriage-return stripper). -/
inductive FormatterK where
  | plain
  | red
  | crStrip
deriving DecidableEq

/-- A configured handler.  `hid` identifies the handler object (fresh per
construction); `filter` is the level-number predicate installed by
`create_filter`, if any. -/
structure Handler where
  hid : Nat
  kind : HKind
  level : Int
  entryFmt : String
  dateFmt : String
  fmtk : FormatterK
  filter : Option (Int → Bool)

/-- A logger known to the `logging` module: its own level and its handler
list. -/
structure LoggerRec where
  level : Int
  handlers : List Handler

/-- A logging function stored on a `LogManager`: either a bound method of
the underlying logger (`debug`, `info`, ...) or the closure added by
`_add_log_function`, which logs at a fixed level number. -/
inductive LogFn where
  | base (name : String)
  | atLevel (num : Int)
deriving DecidableEq

/-- The per-instance data of a `LogManager` object.  `attrs` is the set of
instance attribute names (what `getattr(self, name)` finds besides class
attributes). -/
structure LMData where
  lmName : Option String
  attrs : List String
  logFuncs : List (String × LogFn)
  entryFormat : String
  dateFormat : String
  stdoutLvl : Int
  tzAliases : List (String × String)
deriving DecidableEq

/-- The process-wide state: the timezone string the environment reports
(`time.strftime("%Z", ...)`), the number of handler objects created so far
(`len(logging._handlerList)`), the logger registry, the two level
registries of the `logging` module, `LogManager._default_instance`,
`LogManager._instances`, and the heap of `LogManager` objects keyed by
instance id. -/
structure GState where
  tz : String
  nextHid : Nat
  loggers : List (Option String × LoggerRec)
  nameToLevel : List (String × Int)
  levelToName : List (Int × String)
  defaultInstance : Option Nat
  instances : List (String × Nat)
  managers : List (Nat × LMData)
  nextMid : Nat

/-- `logging.addLevelName(level, levelName)`: sets both direction maps. -/
def addLevelName (st : GState) (num : Int) (name : String) : GState :=
  { st with levelToName := aset st.levelToName num name,
            nameToLevel := aset st.nameToLevel name num }

/-- The comparison performed by `level_number not in logging._nameToLevel`:
the keys of `_nameToLevel` are strings, and in Python an `int` is never
equal to a `str`, so the membership test compares each key like this and
always fails. -/
def pyStrEqInt (_s : String) (_n : Int) : Bool := false

/-- `logging.getLogger(name)` creates the logger on first access (a fresh
logger has level `NOTSET = 0` and no handlers). -/
def ensureLogger (st : GState) (name : Option String) : GState :=
  if acontains name st.loggers then st
  else { st with loggers := st.loggers ++ [(name, { level := 0, handlers := [] })] }

def getLoggerRec (st : GState) (name : Option String) : LoggerRec :=
  (alookup name st.loggers).getD { level := 0, handlers := [] }

def updateLogger (st : GState) (name : Option String) (f : LoggerRec → LoggerRec) : GState :=
  { st with loggers := aset st.loggers name (f (getLoggerRec st name)) }

def loggerHandlers (st : GState) (name : Option String) : List Handler :=
  (getLoggerRec st name).handlers

/-- The class attributes of `LogManager` (its methods and class
variables), visible to `getattr(self, name)`; double-underscore object
attributes are not used by any caller and are omitted. -/
def classAttrs : List String :=
  ["get_instance", "_set_instance", "get_log_funcs", "create_default_stream_logger",
   "create_default_logger", "set_timezone_alias", "create_filter", "create_formatter",
   "_prep_log_dir", "add_level", "_add_log_function", "add_handler",
   "init_default_stream_logger", "init_default_logger", "_default_instance", "_instances"]

/-- The base logging-function names bound in `__init__`. -/
def baseLogFnNames : List String :=
  ["debug", "info", "warning", "error", "critical", "exception", "log"]

/-- The instance attributes `__init__` sets before its `add_level` call. -/
def baseInstanceAttrs : List String :=
  ["name", "tz_aliases", "logger", "defaults", "log_funcs", "stdout_lvl"] ++ baseLogFnNames

def lmHasAttr (lm : LMData) (attr : String) : Bool :=
  lm.attrs.contains attr || classAttrs.contains attr

def updateManager (st : GState) (mid : Nat) (f : LMData → LMData) : GState :=
  match alookup mid st.managers with
  | some lm => { st with managers := aset st.managers mid (f lm) }
  | none => st

/-- `LogManager._add_log_function`: `setattr(self, fn_name, _log)` and
record it in `log_funcs`. -/
def _add_log_function (st : GState) (mid : Nat) (num : Int) (fnName : String) : GState :=
  updateManager st mid (fun lm =>
    { lm with attrs := if lm.attrs.contains fnName then lm.attrs else lm.attrs ++ [fnName],
              logFuncs := aset lm.logFuncs fnName (.atLevel num) })

/-- `LogManager.add_level(level_number, level_name, fn_name)`.  A call on
an instance id that does not exist cannot arise from the constructor and
is modelled as a no-op. -/
def add_level (st : GState) (mid : Nat) (levelNumber : Int) (levelName : String)
    (fnNameOpt : Option String) : GState × Option PyExc :=
  match alookup mid st.managers with
  | none => (st, none)
  | some lm =>
    let fnName := fnNameOpt.getD levelName
    if lmHasAttr lm fnName then
      (st, some { cls := .inputValidationExceptionC,
                  msg := "This LogManager already has a method called " ++ fnName })
    else
      let st1 :=
        if acontains levelName st.nameToLevel
            || st.nameToLevel.any (fun p => pyStrEqInt p.1 levelNumber) then st
        else addLevelName st levelNumber levelName
      (_add_log_function st1 mid levelNumber fnName, none)

/-- `LogManager._set_instance`. -/
def _set_instance (st : GState) (name : Option String) (mid : Nat) : GState :=
  match name with
  | none => { st with defaultInstance := some mid }
  | some n => { st with instances := aset st.instances n mid }

def defaultEntryFormat : String := "%(message)s"

def defaultDateFormat : String := "%Y-%m-%d %H:%M:%S %Z"

def defaultTzAliases : List (String × String) :=
  [("Eastern Standard Time", "EST"), ("Eastern Daylight Time", "EDT")]

/-- `LogManager.__init__`, with the exception channel of its guarded
`add_level` call exposed: the `Option PyExc` component is what `__init__`
would propagate out of the `ignore_exceptions` block (when it is `some`,
the trailing `_set_instance` does not run). -/
def LogManager_init_core (st : GState) (name : Option String)
    (entryFmt dateFmt : Option String) (replaceHandlers : Bool) : (GState × Nat) × Option PyExc :=
  let entry := entryFmt.getD defaultEntryFormat
  let date := dateFmt.getD defaultDateFormat
  let st := if name.isSome && decide (st.nextHid < 1) then
              updateLogger st none (fun lg => { lg with level := 0 })
            else st
  let st := ensureLogger st name
  let st := if replaceHandlers then updateLogger st name (fun lg => { lg with handlers := [] }) else st
  let st := updateLogger st name (fun lg => { lg with level := 0 })
  let mid := st.nextMid
  let lm : LMData :=
    { lmName := name, attrs := baseInstanceAttrs,
      logFuncs := baseLogFnNames.map (fun f => (f, LogFn.base f)),
      entryFormat := entry, dateFormat := date, stdoutLvl := 20, tzAliases := defaultTzAliases }
  let st := { st with managers := st.managers ++ [(mid, lm)], nextMid := mid + 1 }
  let r := ignore_exceptions [ExcClass.inputValidationExceptionC]
             (fun s => add_level s mid 19 "VERBOSE" (some "verbose")) st
  let st2 := if r.2.isSome then r.1 else _set_instance r.1 name mid
  ((st2, mid), r.2)

/-- `LogManager(name, entry_fmt, date_fmt, replace_handlers)`: the state
after construction and the id of the new instance. -/
def LogManager_init (st : GState) (name : Option String)
    (entryFmt dateFmt : Option String) (replaceHandlers : Bool) : GState × Nat :=
  (LogManager_init_core st name entryFmt dateFmt replaceHandlers).1

/-- A destination passed to `add_handler`: an object with a `write`
attribute (a stream) or a filesystem path. -/
inductive Destination where
  | stream (name : String)
  | path (p : String)
deriving DecidableEq

/-- The `date_fmt.replace("%Z", alias)` step of `add_handler`, applied
when the environment's timezone string has an alias. -/
def tzAdjustDateFmt (tz : String) (aliases : List (String × String)) (dateFmt : String) : String :=
  match alookup tz aliases with
  | some a => dateFmt.replace "%Z" a
  | none => dateFmt

/-- `LogManager.add_handler(destination, level, fmt, date_fmt, filter,
rotate, formatter)`.  `_prep_log_dir` only touches the filesystem and is
not modelled.  A call on an unknown instance id is modelled as a no-op. -/
def add_handler (st : GState) (mid : Nat) (dest : Destination) (level : Int)
    (fmt dateFmt : Option String) (filter : Option (Int → Bool)) (rotate : Bool)
    (formatter : Option FormatterK) : GState :=
  match alookup mid st.managers with
  | none => st
  | some lm =>
    let entryFmt := fmt.getD lm.entryFormat
    let dateFmt0 := dateFmt.getD lm.dateFormat
    let fmtk := formatter.getD .plain
    let kind : HKind :=
      match dest with
      | .stream s => .stream s
      | .path p => if rotate then .timedRotatingFile p else .file p
    let dateFmt1 := tzAdjustDateFmt st.tz lm.tzAliases dateFmt0
    let h : Handler := { hid := st.nextHid, kind := kind, level := level,
                         entryFmt := entryFmt, dateFmt := dateFmt1, fmtk := fmtk, filter := filter }
    let st := { st with nextHid := st.nextHid + 1 }
    updateLogger st lm.lmName (fun lg => { lg with handlers := lg.handlers ++ [h] })

/-- `LogManager.create_filter(filter_fn)`: the produced `logging.Filter`
admits a record exactly when `filter_fn(record.levelno)` does, so it is
modelled by the level-number predicate itself. -/
def create_filter (fn : Int → Bool) : Int → Bool := fn

/-- The `lambda lvl: lvl >= logging.WARNING` filter of
`init_default_stream_logger`. -/
def stderrFilterFn (lvl : Int) : Bool := decide (30 ≤ lvl)

/-- The `lambda lvl: lvl < logging.WARNING` filter of
`init_default_stream_logger`. -/
def stdoutFilterFn (lvl : Int) : Bool := decide (lvl < 30)

/-- `logging.getLevelName` applied to a registered level name returns its
number.  The unregistered branch (Python would return the string
`"Level X"`) cannot be reached by the callers modelled here, because the
constructor registers `VERBOSE` first; it is modelled by `0`. -/
def getLevelNameNum (st : GState) (name : String) : Int :=
  (alookup name st.nameToLevel).getD 0

/-- `LogManager.init_default_stream_logger(debug, verbose)`. -/
def init_default_stream_logger (st : GState) (mid : Nat) (debug verbose : Bool) : GState :=
  let stderrFilter := create_filter stderrFilterFn
  let stdoutFilter := create_filter stdoutFilterFn
  let stdoutLvl : Int := if debug then 10 else 20
  let stdoutLvl : Int := if verbose then getLevelNameNum st "VERBOSE" else stdoutLvl
  let st := add_handler st mid (.stream "stdout") stdoutLvl none none (some stdoutFilter) true none
  add_handler st mid (.stream "stderr") 20 (some "%(levelname)s %(message)s") none
    (some stderrFilter) true (some .red)

def fileLogEntryFormat : String := "%(asctime)s %(levelname)s %(funcName)s:%(lineno)d %(message)s"

/-- `LogManager.init_default_logger(debug, verbose, log_path)`.  `logPath`
is the resolved destination: when the caller passes `None` the source
derives a `/var/tmp` filename from the calling module, user and clock,
which is environment input here. -/
def init_default_logger (st : GState) (mid : Nat) (debug verbose : Bool) (logPath : String) : GState :=
  let st := init_default_stream_logger st mid debug verbose
  add_handler st mid (.path logPath) 10 (some fileLogEntryFormat) none none true (some .crStrip)

/-- `LogManager.create_default_stream_logger(debug, verbose, ...)`. -/
def create_default_stream_logger (st : GState) (debug verbose : Bool)
    (name : Option String) (entryFmt dateFmt : Option String) (replaceHandlers : Bool) :
    GState × Nat :=
  let r := LogManager_init st name entryFmt dateFmt replaceHandlers
  (init_default_stream_logger r.1 r.2 debug verbose, r.2)

/-- `LogManager.get_instance(name, *args, **kwargs)`; the forwarded
arguments are `create_default_stream_logger`'s `debug` and `verbose`. -/
def get_instance (st : GState) (name : Option String) (debug verbose : Bool) :
    GState × Option Nat :=
  match name with
  | none =>
    match st.defaultInstance with
    | some i => (st, some i)
    | none =>
      let st := (create_default_stream_logger st debug verbose none none none true).1
      (st, st.defaultInstance)
  | some n =>
    if acontains n st.instances then (st, alookup n st.instances)
    else
      let st := (create_default_stream_logger st debug verbose (some n) none none true).1
      (st, alookup n st.instances)

/-- The registry slot `get_instance`/`_set_instance` use for a name:
`_default_instance` for `None`, the `_instances` entry otherwise. -/
def instanceSlot (st : GState) (name : Option String) : Option Nat :=
  match name with
  | none => st.defaultInstance
  | some n => alookup n st.instances

/-- The `logging` module's initial name registry
(`logging._nameToLevel`). -/
def initialNameToLevel : List (String × Int) :=
  [("CRITICAL", 50), ("FATAL", 50), ("ERROR", 40), ("WARN", 30), ("WARNING", 30),
   ("INFO", 20), ("DEBUG", 10), ("NOTSET", 0)]

/-- The `logging` module's initial number registry
(`logging._levelToName`). -/
def initialLevelToName : List (Int × String) :=
  [(50, "CRITICAL"), (40, "ERROR"), (30, "WARNING"), (20, "INFO"), (10, "DEBUG"), (0, "NOTSET")]

/-- A fresh process: no handlers created, only the root logger (level
`WARNING = 30`), the standard level registries, and an empty `LogManager`
registry.  `tz` is the timezone string the environment reports. -/
def initialState (tz : String) : GState :=
  { tz := tz, nextHid := 0,
    loggers := [(none, { level := 30, handlers := [] })],
    nameToLevel := initialNameToLevel,
    levelToName := initialLevelToName,
    defaultInstance := none, instances := [], managers := [], nextMid := 0 }

/-- One observable `LogManager` operation, for reasoning over arbitrary
operation sequences. -/
inductive Op where
  | construct (name : Option String) (entryFmt dateFmt : Option String) (replaceHandlers : Bool)
  | getInst (name : Option String) (debug verbose : Bool)
  | addH (mid : Nat) (dest : Destination) (level : Int) (fmt dateFmt : Option String)
         (filter : Option (Int → Bool)) (rotate : Bool) (formatter : Option FormatterK)
  | initStream (mid : Nat) (debug verbose : Bool)
  | initFile (mid : Nat) (debug verbose : Bool) (logPath : String)
  | addLvl (mid : Nat) (num : Int) (levelName : String) (fnName : Option String)

def step (st : GState) : Op → GState
  | .construct n e d r => (LogManager_init st n e d r).1
  | .getInst n dbg v => (get_instance st n dbg v).1
  | .addH mid dest lvl f df filt rot fk => add_handler st mid dest lvl f df filt rot fk
  | .initStream mid d v => init_default_stream_logger st mid d v
  | .initFile mid d v p => init_default_logger st mid d v p
  | .addLvl mid num nm fn => (add_level st mid num nm fn).1

def run (tz : String) (ops : List Op) : GState := ops.foldl step (initialState tz)

/-! ## The demo HTTP server (`asyncio_server_test.py`) -/

/-- The apostrophe character, `chr(39)`. -/
def apos : Char := Char.ofNat 39

/-- `html.escape` on one character (with the default `quote=True`):
`&`, `<`, `>`, `"` and the apostrophe are replaced by their entities,
every other character is kept. -/
def escChar (c : Char) : List Char :=
  if c = '&' then ['&', 'a', 'm', 'p', ';']
  else if c = '<' then ['&', 'l', 't', ';']
  else if c = '>' then ['&', 'g', 't', ';']
  else if c = '"' then ['&', 'q', 'u', 'o', 't', ';']
  else if c = apos then ['&', '#', 'x', '2', '7', ';']
  else [c]

/-- `html.escape(s)`. -/
def html_escape (s : String) : String := String.mk (s.data.flatMap escChar)

/-- The `register` closure of `route_registry`: the decorator line
`registry[uri][method] = func.__name__` on a `defaultdict(dict)`. -/
def register_route (registry : List (String × List (String × String)))
    (method uri fnName : String) : List (String × List (String × String)) :=
  aset registry uri (aset ((alookup uri registry).getD []) method fnName)

/-- `TestServer.web_routes`: the registry produced by the single
`@web_routes.register("GET", "/")` decoration of `get_root`. -/
def web_routes : List (String × List (String × String)) :=
  register_route [] "GET" "/" "get_root"

/-- The routes `TestServer.__init__` adds, one `add_route(http_method,
uri, handler)` per registry entry. -/
def serverRoutes : List (String × String × String) :=
  web_routes.flatMap (fun p => p.2.map (fun a => (a.1, p.1, a.2)))

/-- An `aiohttp.web.Response` as produced by the handler. -/
structure HttpResponse where
  contentType : String
  text : String
deriving DecidableEq

/-- `html_template.format(title=..., body=...)`: the module-level template
with the two placeholders substituted (the doubled braces of the CSS block
render as literal braces). -/
def html_template_render (title body : String) : String :=
  "\n<!DOCTYPE html>\n<html lang=\"en\">\n<head>\n    <meta charset=\"utf-8\">\n    <title>"
    ++ title
    ++ "</title>\n    <style type=\"text/css\">\n    table, tr, td \x7b\n        border: 1px solid black;\n    \x7d\n    </style>\n</head>\n<body>\n"
    ++ body
    ++ "\n</body>\n</html>\n"

/-- The sort used by `sorted(req.__dict__.keys())`: ascending
lexicographic order on strings. -/
def pySorted (ks : List String) : List String :=
  List.insertionSort (fun a b : String => a ≤ b) ks

/-- The `row_content` loop of `get_root`: an `OrderedDict` filled with
`row_content[html_escape(k)] = html_escape(str(req.__dict__[k]))` over the
sorted keys.  The request's `__dict__` is modelled as an association list
whose values are already the `str` images of the attribute values; the
lookup default is unreachable because every `k` comes from the dict's own
keys. -/
def rowContentFold (req : List (String × String)) (ks : List String) :
    List (String × String) :=
  ks.foldl (fun acc k => aset acc (html_escape k) (html_escape ((alookup k req).getD ""))) []

/-- `TestServer.get_root(req)`: the response and the incremented request
counter.  The `print` call is output only and not modelled. -/
def get_root (req : List (String × String)) (counter : Nat) : HttpResponse × Nat :=
  let counter := counter + 1
  let sortedKeys := pySorted (req.map Prod.fst)
  let rowContent := rowContentFold req sortedKeys
  let rows := rowContent.map (fun p => "<tr><td>" ++ p.1 ++ "</td><td>" ++ p.2 ++ "</td></tr>")
  let body := "Information about your request:<br/>"
    ++ "<table>" ++ String.intercalate "\n" rows ++ "</table>"
  ({ contentType := "text/html", text := html_template_render "Request Info" body }, counter)

/-- The response body as the claim describes it: one table row per
attribute of the request, attribute names in sorted order, names and
values HTML-escaped.  Stated from the claim's words, for comparison with
`get_root`. -/
def get_root_text_spec (req : List (String × String)) : String :=
  let rows := (pySorted (req.map Prod.fst)).map (fun k =>
    "<tr><td>" ++ html_escape k ++ "</td><td>"
      ++ html_escape ((alookup k req).getD "") ++ "</td></tr>")
  html_template_render "Request Info"
    ("Information about your request:<br/>"
      ++ "<table>" ++ String.intercalate "\n" rows ++ "</table>")

/-! ## Concrete sample data used by witnesses -/

/-- The state after constructing the default `LogManager` in a fresh
process. -/
def sampleState : GState := (LogManager_init (initialState "UTC") none none none true).1

/-- The instance data of that default `LogManager`. -/
def sampleLM : LMData :=
  { lmName := none,
    attrs := baseInstanceAttrs ++ ["verbose"],
    logFuncs := aset (baseLogFnNames.map (fun f => (f, LogFn.base f))) "verbose"
      (LogFn.atLevel 19),
    entryFormat := defaultEntryFormat, dateFormat := defaultDateFormat,
    stdoutLvl := 20, tzAliases := defaultTzAliases }

/-! ## Association-list lemmas -/

theorem alookup_map_set_self [DecidableEq α] (l : List (α × β)) (k : α) (v : β)
    (hc : acontains k l = true) :
    alookup k (l.map (fun p => if p.1 = k then (k, v) else p)) = some v := by
  induction l with
  | nil => simp [acontains, alookup] at hc
  | cons p t ih =>
    obtain ⟨a, b⟩ := p
    by_cases hak : a = k
    · subst hak
      have hhead : (if ((a, b) : α × β).1 = a then (a, v) else (a, b)) = (a, v) := if_pos rfl
      rw [List.map_cons, hhead]
      simp [alookup]
    · have ht : acontains k t = true := by
        simpa [acontains, alookup, hak] using hc
      have hhead : (if ((a, b) : α × β).1 = k then (k, v) else (a, b)) = (a, b) := if_neg hak
      rw [List.map_cons, hhead]
      simp [alookup, hak, ih ht]

theorem alookup_map_set_other [DecidableEq α] (l : List (α × β)) (k k2 : α) (v : β)
    (h : k2 ≠ k) :
    alookup k2 (l.map (fun p => if p.1 = k then (k, v) else p)) = alookup k2 l := by
  induction l with
  | nil => rfl
  | cons p t ih =>
    obtain ⟨a, b⟩ := p
    by_cases hak : a = k
    · subst hak
      have hhead : (if ((a, b) : α × β).1 = a then (a, v) else (a, b)) = (a, v) := if_pos rfl
      rw [List.map_cons, hhead]
      simp [alookup, Ne.symm h, ih]
    · have hhead : (if ((a, b) : α × β).1 = k then (k, v) else (a, b)) = (a, b) := if_neg hak
      rw [List.map_cons, hhead]
      by_cases hak2 : a = k2
      · simp [alookup, hak2]
      · simp [alookup, hak2, ih]

theorem alookup_append_right [DecidableEq α] (l l2 : List (α × β)) (k : α)
    (hc : acontains k l = false) :
    alookup k (l ++ l2) = alookup k l2 := by
  induction l with
  | nil => rfl
  | cons p t ih =>
    obtain ⟨a, b⟩ := p
    by_cases hak : a = k
    · simp [acontains, alookup, hak] at hc
    · have ht : acontains k t = false := by
        simpa [acontains, alookup, hak] using hc
      simp [alookup, hak, ih ht]

theorem alookup_append_ne [DecidableEq α] (l : List (α × β)) (k k2 : α) (v : β)
    (h : k2 ≠ k) :
    alookup k2 (l ++ [(k, v)]) = alookup k2 l := by
  induction l with
  | nil => simp [alookup, Ne.symm h]
  | cons p t ih =>
    obtain ⟨a, b⟩ := p
    by_cases hak2 : a = k2
    · simp [alookup, hak2]
    · simp [alookup, hak2, ih]

theorem alookup_aset_self [DecidableEq α] (l : List (α × β)) (k : α) (v : β) :
    alookup k (aset l k v) = some v := by
  by_cases hc : acontains k l = true
  · unfold aset
    rw [if_pos hc]
    exact alookup_map_set_self l k v hc
  · unfold aset
    rw [if_neg hc]
    rw [alookup_append_right l [(k, v)] k (by simpa using hc)]
    simp [alookup]

theorem alookup_aset_other [DecidableEq α] (l : List (α × β)) (k k2 : α) (v : β)
    (h : k2 ≠ k) :
    alookup k2 (aset l k v) = alookup k2 l := by
  by_cases hc : acontains k l = true
  · unfold aset
    rw [if_pos hc]
    exact alookup_map_set_other l k k2 v h
  · unfold aset
    rw [if_neg hc]
    exact alookup_append_ne l k k2 v h

/-! ## Exception-suppression lemmas and claims C6, C9 -/

theorem ignore_exceptions_fst (classes : List ExcClass) (body : PyAction σ) (s : σ) :
    (ignore_exceptions classes body s).1 = (body s).1 := by
  unfold ignore_exceptions
  rcases body s with ⟨s1, e⟩
  cases e with
  | none => rfl
  | some e => by_cases h : pyIsInstance e classes = true <;> simp [h]

theorem ignore_exceptions_swallows (classes : List ExcClass) (body : PyAction σ)
    (s : σ) (hyp : ∀ e, (body s).2 = some e → pyIsInstance e classes = true) :
    (ignore_exceptions classes body s).2 = none := by
  unfold ignore_exceptions
  rcases hb : body s with ⟨s1, e⟩
  cases e with
  | none => rfl
  | some e =>
    have := hyp e (by rw [hb])
    simp [this]

/-- The only exception `add_level` itself raises is an
`InputValidationException`. -/
theorem add_level_exc_classes (st : GState) (mid : Nat) (num : Int) (nm : String)
    (fn : Option String) :
    (add_level st mid num nm fn).2 = none ∨
    ∃ m, (add_level st mid num nm fn).2
        = some { cls := ExcClass.inputValidationExceptionC, msg := m } := by
  unfold add_level
  cases alookup mid st.managers with
  | none => left; rfl
  | some lm =>
    by_cases ha : lmHasAttr lm (fn.getD nm) = true
    · right
      exact ⟨"This LogManager already has a method called " ++ fn.getD nm, by simp [ha]⟩
    · left
      simp [ha]

/-- The guarded `add_level` call inside `__init__` never lets an exception
escape the `ignore_exceptions(InputValidationException)` block. -/
theorem LogManager_init_core_exc (st : GState) (name : Option String)
    (entryFmt dateFmt : Option String) (replaceHandlers : Bool) :
    (LogManager_init_core st name entryFmt dateFmt replaceHandlers).2 = none := by
  unfold LogManager_init_core
  apply ignore_exceptions_swallows
  intro e he
  rcases add_level_exc_classes _ _ _ _ _ with h0 | ⟨m, h0⟩
  · rw [h0] at he
    exact absurd he (by simp)
  · rw [h0] at he
    have hme : ({ cls := ExcClass.inputValidationExceptionC, msg := m } : PyExc) = e :=
      Option.some.inj he
    rw [← hme]
    rfl

/-- C6: `ignore_exceptions` suppresses exactly the listed exception
classes — an exception whose class is an instance of one of the listed
classes is swallowed and the block exits normally with the state the body
reached, any other exception propagates unchanged — and `LogManager`
construction never fails due to the `InputValidationException` raised by
its internal `add_level` call. -/
theorem ignore_exceptions_suppresses_exactly_listed :
    (∀ (σ : Type) (classes : List ExcClass) (body : PyAction σ) (s s1 : σ) (e : PyExc),
        body s = (s1, some e) → pyIsInstance e classes = true →
        ignore_exceptions classes body s = (s1, none)) ∧
    (∀ (σ : Type) (classes : List ExcClass) (body : PyAction σ) (s s1 : σ) (e : PyExc),
        body s = (s1, some e) → pyIsInstance e classes = false →
        ignore_exceptions classes body s = (s1, some e)) ∧
    (∀ (st : GState) (name : Option String) (entryFmt dateFmt : Option String)
        (replaceHandlers : Bool),
        (LogManager_init_core st name entryFmt dateFmt replaceHandlers).2 = none) := by
  refine ⟨?_, ?_, ?_⟩
  · intro σ classes body s s1 e hb hi
    unfold ignore_exceptions
    rw [hb]
    simp [hi]
  · intro σ classes body s s1 e hb hi
    unfold ignore_exceptions
    rw [hb]
    simp [hi]
  · intro st name entryFmt dateFmt replaceHandlers
    exact LogManager_init_core_exc st name entryFmt dateFmt replaceHandlers

theorem ignore_exceptions_suppresses_exactly_listed_witness :
    pyIsInstance { cls := .valueErrorC, msg := "boom" } [ExcClass.exceptionC] = true ∧
    ignore_exceptions [ExcClass.exceptionC]
        (fun n : Nat => (n + 1, some { cls := .valueErrorC, msg := "boom" })) 0 = (1, none) ∧
    pyIsInstance { cls := .valueErrorC, msg := "boom" } [ExcClass.keyboardInterruptC] = false ∧
    ignore_exceptions [ExcClass.keyboardInterruptC]
        (fun n : Nat => (n + 1, some { cls := .valueErrorC, msg := "boom" })) 0
      = (1, some { cls := .valueErrorC, msg := "boom" }) :=
  ⟨by decide,
   ignore_exceptions_suppresses_exactly_listed.1 Nat _ _ 0 1 _ rfl (by decide),
   by decide,
   ignore_exceptions_suppresses_exactly_listed.2.1 Nat _ _ 0 1 _ rfl (by decide)⟩

/-- C9 counterexample: with no classes listed,
`ignore_exceptions_except()` does NOT suppress every exception — a
`KeyboardInterrupt` raised by the body does not derive from `Exception`,
is not caught by the `except Exception` clause, and propagates. -/
theorem ignore_exceptions_except_counterexample :
    ignore_exceptions_except []
        (fun n : Nat => (n, some { cls := .keyboardInterruptC, msg := "" })) 0
      = (0, some { cls := .keyboardInterruptC, msg := "" }) := by
  decide

/-- C9 (amended): among exceptions that derive from `Exception`,
`ignore_exceptions_except` suppresses exactly those that are not an
instance of one of its listed classes and re-raises exactly those that
are; an exception not deriving from `Exception` always propagates; with no
classes listed, `ignore_exceptions_except()` suppresses every
`Exception`-derived exception, while `ignore_exceptions()` suppresses
nothing. -/
theorem ignore_exceptions_except_suppresses_unlisted :
    (∀ (σ : Type) (classes : List ExcClass) (body : PyAction σ) (s s1 : σ) (e : PyExc),
        body s = (s1, some e) → e.cls.isSubclassOf .exceptionC = true →
        pyIsInstance e classes = true →
        ignore_exceptions_except classes body s = (s1, some e)) ∧
    (∀ (σ : Type) (classes : List ExcClass) (body : PyAction σ) (s s1 : σ) (e : PyExc),
        body s = (s1, some e) → e.cls.isSubclassOf .exceptionC = true →
        pyIsInstance e classes = false →
        ignore_exceptions_except classes body s = (s1, none)) ∧
    (∀ (σ : Type) (classes : List ExcClass) (body : PyAction σ) (s s1 : σ) (e : PyExc),
        body s = (s1, some e) → e.cls.isSubclassOf .exceptionC = false →
        ignore_exceptions_except classes body s = (s1, some e)) ∧
    (∀ (σ : Type) (body : PyAction σ) (s s1 : σ) (e : PyExc),
        body s = (s1, some e) → e.cls.isSubclassOf .exceptionC = true →
        ignore_exceptions_except [] body s = (s1, none)) ∧
    (∀ (σ : Type) (body : PyAction σ) (s s1 : σ) (e : PyExc),
        body s = (s1, some e) → ignore_exceptions [] body s = (s1, some e)) := by
  refine ⟨?_, ?_, ?_, ?_, ?_⟩
  · intro σ classes body s s1 e hb hsub hi
    unfold ignore_exceptions_except
    rw [hb]
    simp [hsub, hi]
  · intro σ classes body s s1 e hb hsub hi
    unfold ignore_exceptions_except
    rw [hb]
    simp [hsub, hi]
  · intro σ classes body s s1 e hb hsub
    unfold ignore_exceptions_except
    rw [hb]
    simp [hsub]
  · intro σ body s s1 e hb hsub
    unfold ignore_exceptions_except
    rw [hb]
    simp [hsub, pyIsInstance]
  · intro σ body s s1 e hb
    unfold ignore_exceptions
    rw [hb]
    simp [pyIsInstance]

theorem ignore_exceptions_except_suppresses_unlisted_witness :
    (ExcClass.isSubclassOf .inputValidationExceptionC .exceptionC = true) ∧
    (pyIsInstance { cls := .inputValidationExceptionC, msg := "x" }
        [ExcClass.inputValidationExceptionC] = true) ∧
    ignore_exceptions_except [ExcClass.inputValidationExceptionC]
        (fun n : Nat => (n + 1, some { cls := .inputValidationExceptionC, msg := "x" })) 0
      = (1, some { cls := .inputValidationExceptionC, msg := "x" }) ∧
    ignore_exceptions_except []
        (fun n : Nat => (n + 1, some { cls := .inputValidationExceptionC, msg := "x" })) 0
      = (1, none) ∧
    ignore_exceptions []
        (fun n : Nat => (n + 1, some { cls := .inputValidationExceptionC, msg := "x" })) 0
      = (1, some { cls := .inputValidationExceptionC, msg := "x" }) :=
  ⟨by decide, by decide,
   ignore_exceptions_except_suppresses_unlisted.1 Nat _ _ 0 1 _ rfl (by decide) (by decide),
   ignore_exceptions_except_suppresses_unlisted.2.2.2.1 Nat _ 0 1 _ rfl (by decide),
   ignore_exceptions_except_suppresses_unlisted.2.2.2.2 Nat _ 0 1 _ rfl⟩

/-! ## Claim C10 -/

/-- C10: `add_level` is atomic on failure — whenever the call raises (in
particular when the function name already exists on the instance), the
whole process state, hence the instance's `log_funcs`, its attributes and
the `logging` module's level registries, is left unchanged. -/
theorem add_level_atomic_on_failure (st : GState) (mid : Nat) (num : Int)
    (levelName : String) (fnOpt : Option String) (e : PyExc)
    (h : (add_level st mid num levelName fnOpt).2 = some e) :
    (add_level st mid num levelName fnOpt).1 = st := by
  unfold add_level at h ⊢
  cases hl : alookup mid st.managers with
  | none => rfl
  | some lm =>
    by_cases ha : lmHasAttr lm (fnOpt.getD levelName) = true
    · simp [ha]
    · rw [hl] at h
      simp [ha] at h

theorem add_level_atomic_on_failure_witness :
    ((add_level (LogManager_init (initialState "UTC") none none none true).1
        (LogManager_init (initialState "UTC") none none none true).2
        25 "NOTICE" (some "info")).2
      = some { cls := .inputValidationExceptionC,
               msg := "This LogManager already has a method called info" }) ∧
    ((add_level (LogManager_init (initialState "UTC") none none none true).1
        (LogManager_init (initialState "UTC") none none none true).2
        25 "NOTICE" (some "info")).1
      = (LogManager_init (initialState "UTC") none none none true).1) :=
  ⟨by decide,
   add_level_atomic_on_failure _ _ _ _ _
     { cls := .inputValidationExceptionC,
       msg := "This LogManager already has a method called info" } (by decide)⟩

/-! ## Claim C1 -/

theorem any_pyStrEqInt (l : List (String × Int)) (n : Int) :
    (l.any fun p => pyStrEqInt p.1 n) = false := by
  simp [pyStrEqInt]

theorem _add_log_function_nameToLevel (st : GState) (mid : Nat) (num : Int) (fn : String) :
    (_add_log_function st mid num fn).nameToLevel = st.nameToLevel := by
  unfold _add_log_function updateManager
  cases alookup mid st.managers <;> rfl

theorem _add_log_function_levelToName (st : GState) (mid : Nat) (num : Int) (fn : String) :
    (_add_log_function st mid num fn).levelToName = st.levelToName := by
  unfold _add_log_function updateManager
  cases alookup mid st.managers <;> rfl

theorem _add_log_function_lookup (st : GState) (mid : Nat) (num : Int) (fn : String)
    (lm : LMData) (h : alookup mid st.managers = some lm) :
    alookup mid (_add_log_function st mid num fn).managers
      = some { lm with
               attrs := if lm.attrs.contains fn then lm.attrs else lm.attrs ++ [fn],
               logFuncs := aset lm.logFuncs fn (.atLevel num) } := by
  unfold _add_log_function updateManager
  rw [h]
  exact alookup_aset_self _ _ _

/-- C1 counterexample: on the state reached by constructing a fresh
`LogManager`, the level number 10 is registered (it names `DEBUG`) while
the name `TRACE` is not; the claim therefore demands that
`add_level(10, "TRACE", "trace")` register no new level name, yet the call
succeeds and registers `TRACE`, because the code's duplicate-number test
compares the integer against the string keys of `logging._nameToLevel`
and never matches. -/
theorem add_level_registered_number_counterexample :
    alookup 10 sampleState.levelToName = some "DEBUG" ∧
    alookup "TRACE" sampleState.nameToLevel = none ∧
    (add_level sampleState 0 10 "TRACE" (some "trace")).2 = none ∧
    alookup "TRACE" (add_level sampleState 0 10 "TRACE" (some "trace")).1.nameToLevel
      = some 10 := by
  decide

/-- C1 (amended): `add_level(level_number, level_name, fn_name)` raises
`InputValidationException` when the instance already has an attribute
named `fn_name` (or `level_name` when `fn_name` is `None`); otherwise it
returns normally, and a new level name is registered if and only if
`level_name` is not already a registered level name — the duplicate
`level_number` test compares the number against the string keys of the
name registry and never fires, so an already-registered level number does
not prevent registration; in every non-raising case a logging function
under `fn_name` is added to the instance. -/
theorem add_level_spec (st : GState) (mid : Nat) (num : Int) (levelName : String)
    (fnOpt : Option String) (lm : LMData) (h : alookup mid st.managers = some lm) :
    (lmHasAttr lm (fnOpt.getD levelName) = true →
      add_level st mid num levelName fnOpt
        = (st, some { cls := ExcClass.inputValidationExceptionC,
                      msg := "This LogManager already has a method called "
                        ++ fnOpt.getD levelName })) ∧
    (lmHasAttr lm (fnOpt.getD levelName) = false →
      (add_level st mid num levelName fnOpt).2 = none ∧
      (acontains levelName st.nameToLevel = true →
        (add_level st mid num levelName fnOpt).1.nameToLevel = st.nameToLevel ∧
        (add_level st mid num levelName fnOpt).1.levelToName = st.levelToName) ∧
      (acontains levelName st.nameToLevel = false →
        (add_level st mid num levelName fnOpt).1.nameToLevel
          = aset st.nameToLevel levelName num ∧
        (add_level st mid num levelName fnOpt).1.levelToName
          = aset st.levelToName num levelName) ∧
      (∃ lm2, alookup mid (add_level st mid num levelName fnOpt).1.managers = some lm2 ∧
        lm2.attrs.contains (fnOpt.getD levelName) = true ∧
        alookup (fnOpt.getD levelName) lm2.logFuncs = some (LogFn.atLevel num))) := by
  constructor
  · intro ha
    unfold add_level
    rw [h]
    simp [ha]
  · intro ha
    unfold add_level
    rw [h]
    simp only [ha, Bool.false_eq_true, if_false, any_pyStrEqInt, Bool.or_false]
    by_cases hc : acontains levelName st.nameToLevel = true
    · rw [if_pos hc]
      refine ⟨by trivial, fun _ => ⟨?_, ?_⟩, fun hcf => absurd hc (by simp [hcf]), ?_⟩
      · exact _add_log_function_nameToLevel st mid num (fnOpt.getD levelName)
      · exact _add_log_function_levelToName st mid num (fnOpt.getD levelName)
      · refine ⟨_, _add_log_function_lookup st mid num (fnOpt.getD levelName) lm h, ?_, ?_⟩
        · by_cases hf : fnOpt.getD levelName ∈ lm.attrs <;> simp [hf]
        · exact alookup_aset_self _ _ _
    · rw [if_neg hc]
      have hm : alookup mid (addLevelName st num levelName).managers = some lm := h
      refine ⟨by trivial, fun hct => absurd hct hc, fun _ => ⟨?_, ?_⟩, ?_⟩
      · rw [_add_log_function_nameToLevel]
        rfl
      · rw [_add_log_function_levelToName]
        rfl
      · refine ⟨_, _add_log_function_lookup (addLevelName st num levelName) mid num
          (fnOpt.getD levelName) lm hm, ?_, ?_⟩
        · by_cases hf : fnOpt.getD levelName ∈ lm.attrs <;> simp [hf]
        · exact alookup_aset_self _ _ _

theorem add_level_spec_witness :
    (alookup 0 sampleState.managers = some sampleLM) ∧
    (lmHasAttr sampleLM "info" = true) ∧
    add_level sampleState 0 25 "NOTICE" (some "info")
      = (sampleState, some { cls := ExcClass.inputValidationExceptionC,
                             msg := "This LogManager already has a method called info" }) :=
  ⟨by decide, by decide,
   (add_level_spec sampleState 0 25 "NOTICE" (some "info") sampleLM (by decide)).1 (by decide)⟩

/-! ## State-projection lemmas -/

theorem GState_ite_nextMid (c : Prop) [Decidable c] (a b : GState) :
    (if c then a else b).nextMid = if c then a.nextMid else b.nextMid := by
  split <;> rfl

theorem GState_ite_nextHid (c : Prop) [Decidable c] (a b : GState) :
    (if c then a else b).nextHid = if c then a.nextHid else b.nextHid := by
  split <;> rfl

theorem GState_ite_instances (c : Prop) [Decidable c] (a b : GState) :
    (if c then a else b).instances = if c then a.instances else b.instances := by
  split <;> rfl

theorem GState_ite_defaultInstance (c : Prop) [Decidable c] (a b : GState) :
    (if c then a else b).defaultInstance = if c then a.defaultInstance else b.defaultInstance := by
  split <;> rfl

theorem updateLogger_nextMid (st : GState) (nm : Option String) (f : LoggerRec → LoggerRec) :
    (updateLogger st nm f).nextMid = st.nextMid := rfl

theorem updateLogger_nextHid (st : GState) (nm : Option String) (f : LoggerRec → LoggerRec) :
    (updateLogger st nm f).nextHid = st.nextHid := rfl

theorem updateLogger_instances (st : GState) (nm : Option String) (f : LoggerRec → LoggerRec) :
    (updateLogger st nm f).instances = st.instances := rfl

theorem updateLogger_defaultInstance (st : GState) (nm : Option String)
    (f : LoggerRec → LoggerRec) :
    (updateLogger st nm f).defaultInstance = st.defaultInstance := rfl

theorem updateLogger_managers (st : GState) (nm : Option String) (f : LoggerRec → LoggerRec) :
    (updateLogger st nm f).managers = st.managers := rfl

theorem ensureLogger_nextMid (st : GState) (nm : Option String) :
    (ensureLogger st nm).nextMid = st.nextMid := by
  unfold ensureLogger
  split <;> rfl

theorem ensureLogger_nextHid (st : GState) (nm : Option String) :
    (ensureLogger st nm).nextHid = st.nextHid := by
  unfold ensureLogger
  split <;> rfl

theorem ensureLogger_instances (st : GState) (nm : Option String) :
    (ensureLogger st nm).instances = st.instances := by
  unfold ensureLogger
  split <;> rfl

theorem ensureLogger_defaultInstance (st : GState) (nm : Option String) :
    (ensureLogger st nm).defaultInstance = st.defaultInstance := by
  unfold ensureLogger
  split <;> rfl

theorem ensureLogger_managers (st : GState) (nm : Option String) :
    (ensureLogger st nm).managers = st.managers := by
  unfold ensureLogger
  split <;> rfl

theorem updateManager_instances (st : GState) (mid : Nat) (f : LMData → LMData) :
    (updateManager st mid f).instances = st.instances := by
  unfold updateManager
  cases alookup mid st.managers <;> rfl

theorem updateManager_defaultInstance (st : GState) (mid : Nat) (f : LMData → LMData) :
    (updateManager st mid f).defaultInstance = st.defaultInstance := by
  unfold updateManager
  cases alookup mid st.managers <;> rfl

theorem updateManager_loggers (st : GState) (mid : Nat) (f : LMData → LMData) :
    (updateManager st mid f).loggers = st.loggers := by
  unfold updateManager
  cases alookup mid st.managers <;> rfl

theorem updateManager_nextHid (st : GState) (mid : Nat) (f : LMData → LMData) :
    (updateManager st mid f).nextHid = st.nextHid := by
  unfold updateManager
  cases alookup mid st.managers <;> rfl

theorem updateManager_nextMid (st : GState) (mid : Nat) (f : LMData → LMData) :
    (updateManager st mid f).nextMid = st.nextMid := by
  unfold updateManager
  cases alookup mid st.managers <;> rfl

theorem add_level_instances (st : GState) (mid : Nat) (num : Int) (nm : String)
    (fn : Option String) :
    (add_level st mid num nm fn).1.instances = st.instances := by
  unfold add_level
  cases alookup mid st.managers with
  | none => rfl
  | some lm =>
    by_cases ha : lmHasAttr lm (fn.getD nm) = true
    · simp [ha]
    · simp only [ha, Bool.false_eq_true, if_false]
      unfold _add_log_function
      rw [updateManager_instances]
      split <;> rfl

theorem add_level_defaultInstance (st : GState) (mid : Nat) (num : Int) (nm : String)
    (fn : Option String) :
    (add_level st mid num nm fn).1.defaultInstance = st.defaultInstance := by
  unfold add_level
  cases alookup mid st.managers with
  | none => rfl
  | some lm =>
    by_cases ha : lmHasAttr lm (fn.getD nm) = true
    · simp [ha]
    · simp only [ha, Bool.false_eq_true, if_false]
      unfold _add_log_function
      rw [updateManager_defaultInstance]
      split <;> rfl

theorem add_level_loggers (st : GState) (mid : Nat) (num : Int) (nm : String)
    (fn : Option String) :
    (add_level st mid num nm fn).1.loggers = st.loggers := by
  unfold add_level
  cases alookup mid st.managers with
  | none => rfl
  | some lm =>
    by_cases ha : lmHasAttr lm (fn.getD nm) = true
    · simp [ha]
    · simp only [ha, Bool.false_eq_true, if_false]
      unfold _add_log_function
      rw [updateManager_loggers]
      split <;> rfl

theorem add_level_nextHid (st : GState) (mid : Nat) (num : Int) (nm : String)
    (fn : Option String) :
    (add_level st mid num nm fn).1.nextHid = st.nextHid := by
  unfold add_level
  cases alookup mid st.managers with
  | none => rfl
  | some lm =>
    by_cases ha : lmHasAttr lm (fn.getD nm) = true
    · simp [ha]
    · simp only [ha, Bool.false_eq_true, if_false]
      unfold _add_log_function
      rw [updateManager_nextHid]
      split <;> rfl

theorem add_level_nextMid (st : GState) (mid : Nat) (num : Int) (nm : String)
    (fn : Option String) :
    (add_level st mid num nm fn).1.nextMid = st.nextMid := by
  unfold add_level
  cases alookup mid st.managers with
  | none => rfl
  | some lm =>
    by_cases ha : lmHasAttr lm (fn.getD nm) = true
    · simp [ha]
    · simp only [ha, Bool.false_eq_true, if_false]
      unfold _add_log_function
      rw [updateManager_nextMid]
      split <;> rfl

theorem _set_instance_loggers (st : GState) (nm : Option String) (mid : Nat) :
    (_set_instance st nm mid).loggers = st.loggers := by
  cases nm <;> rfl

theorem _set_instance_nextHid (st : GState) (nm : Option String) (mid : Nat) :
    (_set_instance st nm mid).nextHid = st.nextHid := by
  cases nm <;> rfl

theorem add_handler_instances (st : GState) (mid : Nat) (dest : Destination) (level : Int)
    (fmt dateFmt : Option String) (filt : Option (Int → Bool)) (rot : Bool)
    (fmtk : Option FormatterK) :
    (add_handler st mid dest level fmt dateFmt filt rot fmtk).instances = st.instances := by
  unfold add_handler
  cases alookup mid st.managers <;> rfl

theorem add_handler_defaultInstance (st : GState) (mid : Nat) (dest : Destination) (level : Int)
    (fmt dateFmt : Option String) (filt : Option (Int → Bool)) (rot : Bool)
    (fmtk : Option FormatterK) :
    (add_handler st mid dest level fmt dateFmt filt rot fmtk).defaultInstance
      = st.defaultInstance := by
  unfold add_handler
  cases alookup mid st.managers <;> rfl

theorem add_handler_managers (st : GState) (mid : Nat) (dest : Destination) (level : Int)
    (fmt dateFmt : Option String) (filt : Option (Int → Bool)) (rot : Bool)
    (fmtk : Option FormatterK) :
    (add_handler st mid dest level fmt dateFmt filt rot fmtk).managers = st.managers := by
  unfold add_handler
  cases alookup mid st.managers <;> rfl

theorem add_handler_tz (st : GState) (mid : Nat) (dest : Destination) (level : Int)
    (fmt dateFmt : Option String) (filt : Option (Int → Bool)) (rot : Bool)
    (fmtk : Option FormatterK) :
    (add_handler st mid dest level fmt dateFmt filt rot fmtk).tz = st.tz := by
  unfold add_handler
  cases alookup mid st.managers <;> rfl

theorem add_handler_nameToLevel (st : GState) (mid : Nat) (dest : Destination) (level : Int)
    (fmt dateFmt : Option String) (filt : Option (Int → Bool)) (rot : Bool)
    (fmtk : Option FormatterK) :
    (add_handler st mid dest level fmt dateFmt filt rot fmtk).nameToLevel = st.nameToLevel := by
  unfold add_handler
  cases alookup mid st.managers <;> rfl

theorem init_default_stream_logger_instances (st : GState) (mid : Nat) (d v : Bool) :
    (init_default_stream_logger st mid d v).instances = st.instances := by
  unfold init_default_stream_logger
  rw [add_handler_instances, add_handler_instances]

theorem init_default_stream_logger_defaultInstance (st : GState) (mid : Nat) (d v : Bool) :
    (init_default_stream_logger st mid d v).defaultInstance = st.defaultInstance := by
  unfold init_default_stream_logger
  rw [add_handler_defaultInstance, add_handler_defaultInstance]

/-- The `ignore_exceptions` block of `__init__` swallows whatever its
`add_level` call raises. -/
theorem ignore_swallow_add_level (st : GState) (mid : Nat) :
    (ignore_exceptions [ExcClass.inputValidationExceptionC]
       (fun s => add_level s mid 19 "VERBOSE" (some "verbose")) st).2 = none := by
  apply ignore_exceptions_swallows
  intro e he
  rcases add_level_exc_classes st mid 19 "VERBOSE" (some "verbose") with h0 | ⟨m, h0⟩
  · rw [h0] at he
    exact absurd he (by simp)
  · rw [h0] at he
    have hme := Option.some.inj he
    rw [← hme]
    rfl

/-! ## Constructor and registry characterization -/

theorem LogManager_init_mid (st : GState) (n : Option String) (e d : Option String) (r : Bool) :
    (LogManager_init st n e d r).2 = st.nextMid := by
  unfold LogManager_init LogManager_init_core
  simp only [ignore_swallow_add_level, Option.isSome_none, Bool.false_eq_true, if_false,
             updateLogger_nextMid, ensureLogger_nextMid, GState_ite_nextMid, ite_self]

theorem LogManager_init_defaultInstance_none (st : GState) (e d : Option String) (r : Bool) :
    (LogManager_init st none e d r).1.defaultInstance = some st.nextMid := by
  unfold LogManager_init LogManager_init_core
  simp only [ignore_swallow_add_level, Option.isSome_none, Bool.false_eq_true, if_false,
             Bool.false_and, _set_instance, updateLogger_nextMid, ensureLogger_nextMid,
             GState_ite_nextMid, ite_self]

theorem LogManager_init_instances_none (st : GState) (e d : Option String) (r : Bool) :
    (LogManager_init st none e d r).1.instances = st.instances := by
  unfold LogManager_init LogManager_init_core
  simp only [ignore_swallow_add_level, Option.isSome_none, Bool.false_eq_true, if_false,
             Bool.false_and, _set_instance, ignore_exceptions_fst, add_level_instances,
             updateLogger_instances, ensureLogger_instances, GState_ite_instances, ite_self]

theorem LogManager_init_defaultInstance_some (st : GState) (x : String)
    (e d : Option String) (r : Bool) :
    (LogManager_init st (some x) e d r).1.defaultInstance = st.defaultInstance := by
  unfold LogManager_init LogManager_init_core
  simp only [ignore_swallow_add_level, Option.isSome_none, Bool.false_eq_true, if_false,
             _set_instance, ignore_exceptions_fst, add_level_defaultInstance,
             updateLogger_defaultInstance, ensureLogger_defaultInstance,
             GState_ite_defaultInstance, ite_self]

theorem LogManager_init_instances_some (st : GState) (x : String)
    (e d : Option String) (r : Bool) :
    (LogManager_init st (some x) e d r).1.instances = aset st.instances x st.nextMid := by
  unfold LogManager_init LogManager_init_core
  simp only [ignore_swallow_add_level, Option.isSome_none, Bool.false_eq_true, if_false,
             _set_instance, ignore_exceptions_fst, add_level_instances,
             updateLogger_instances, ensureLogger_instances, GState_ite_instances,
             updateLogger_nextMid, ensureLogger_nextMid, GState_ite_nextMid, ite_self]

theorem instanceSlot_init_self (st : GState) (n : Option String) (e d : Option String)
    (r : Bool) :
    instanceSlot (LogManager_init st n e d r).1 n = some st.nextMid := by
  cases n with
  | none => simpa [instanceSlot] using LogManager_init_defaultInstance_none st e d r
  | some x => simp [instanceSlot, LogManager_init_instances_some, alookup_aset_self]

theorem instanceSlot_init_mono (st : GState) (nm n : Option String) (e d : Option String)
    (r : Bool) (h : (instanceSlot st n).isSome = true) :
    (instanceSlot (LogManager_init st nm e d r).1 n).isSome = true := by
  cases nm with
  | none =>
    cases n with
    | none => simp [instanceSlot, LogManager_init_defaultInstance_none]
    | some x => simpa [instanceSlot, LogManager_init_instances_none] using h
  | some y =>
    cases n with
    | none => simpa [instanceSlot, LogManager_init_defaultInstance_some] using h
    | some x =>
      by_cases hxy : x = y
      · subst hxy
        simp [instanceSlot, LogManager_init_instances_some, alookup_aset_self]
      · simp only [instanceSlot, LogManager_init_instances_some,
                   alookup_aset_other st.instances y x st.nextMid hxy]
        simpa [instanceSlot] using h

theorem instanceSlot_stream_init (st : GState) (mid : Nat) (d v : Bool) (n : Option String) :
    instanceSlot (init_default_stream_logger st mid d v) n = instanceSlot st n := by
  cases n <;> simp [instanceSlot, init_default_stream_logger_instances,
                    init_default_stream_logger_defaultInstance]

theorem instanceSlot_add_handler (st : GState) (mid : Nat) (dest : Destination) (level : Int)
    (fmt dateFmt : Option String) (filt : Option (Int → Bool)) (rot : Bool)
    (fmtk : Option FormatterK) (n : Option String) :
    instanceSlot (add_handler st mid dest level fmt dateFmt filt rot fmtk) n
      = instanceSlot st n := by
  cases n <;> simp [instanceSlot, add_handler_instances, add_handler_defaultInstance]

theorem instanceSlot_add_level (st : GState) (mid : Nat) (num : Int) (nm : String)
    (fn : Option String) (n : Option String) :
    instanceSlot (add_level st mid num nm fn).1 n = instanceSlot st n := by
  cases n <;> simp [instanceSlot, add_level_instances, add_level_defaultInstance]

theorem instanceSlot_init_default_logger (st : GState) (mid : Nat) (d v : Bool) (p : String)
    (n : Option String) :
    instanceSlot (init_default_logger st mid d v p) n = instanceSlot st n := by
  unfold init_default_logger
  rw [instanceSlot_add_handler, instanceSlot_stream_init]

theorem create_default_stream_logger_slot (st : GState) (d v : Bool) (name : Option String)
    (e f : Option String) (r : Bool) :
    instanceSlot (create_default_stream_logger st d v name e f r).1 name
      = some st.nextMid := by
  unfold create_default_stream_logger
  rw [instanceSlot_stream_init]
  exact instanceSlot_init_self st name e f r

theorem get_instance_cached (st : GState) (name : Option String) (d v : Bool) (i : Nat)
    (h : instanceSlot st name = some i) :
    get_instance st name d v = (st, some i) := by
  cases name with
  | none =>
    have hd : st.defaultInstance = some i := h
    simp [get_instance, hd]
  | some x =>
    have hl : alookup x st.instances = some i := h
    have hc : acontains x st.instances = true := by simp [acontains, hl]
    simp [get_instance, hc, hl]

theorem instanceSlot_get_instance_self (st : GState) (name : Option String) (d v : Bool) :
    instanceSlot (get_instance st name d v).1 name = (get_instance st name d v).2 ∧
    ((get_instance st name d v).2).isSome = true := by
  cases name with
  | none =>
    cases hdi : st.defaultInstance with
    | some i => simp [get_instance, hdi, instanceSlot]
    | none =>
      simp only [get_instance, hdi]
      refine ⟨rfl, ?_⟩
      have hc := create_default_stream_logger_slot st d v none none none true
      have : (create_default_stream_logger st d v none none none true).1.defaultInstance
          = some st.nextMid := hc
      simp [this]
  | some x =>
    by_cases hc : acontains x st.instances = true
    · simp only [get_instance, if_pos hc]
      exact ⟨rfl, hc⟩
    · simp only [get_instance, if_neg hc]
      refine ⟨rfl, ?_⟩
      have hs := create_default_stream_logger_slot st d v (some x) none none true
      have : alookup x (create_default_stream_logger st d v (some x) none none true).1.instances
          = some st.nextMid := hs
      simp [this]

theorem instanceSlot_get_instance_mono (st : GState) (m : Option String) (d v : Bool)
    (n : Option String) (h : (instanceSlot st n).isSome = true) :
    (instanceSlot (get_instance st m d v).1 n).isSome = true := by
  cases m with
  | none =>
    cases hdi : st.defaultInstance with
    | some i => simpa [get_instance, hdi] using h
    | none =>
      simp only [get_instance, hdi]
      unfold create_default_stream_logger
      rw [instanceSlot_stream_init]
      exact instanceSlot_init_mono st none n none none true h
  | some x =>
    by_cases hc : acontains x st.instances = true
    · simpa [get_instance, hc] using h
    · simp only [get_instance, if_neg hc]
      unfold create_default_stream_logger
      rw [instanceSlot_stream_init]
      exact instanceSlot_init_mono st (some x) n none none true h

/-! ## Claims C2 and C3 -/

/-- C2: `get_instance` is idempotent per name (including `None`): when the
registry already holds an instance for the name, the call returns that
instance and leaves the state untouched, and two consecutive calls with
the same name return the same instance. -/
theorem get_instance_idempotent (st : GState) (name : Option String) (d v : Bool) :
    (∀ i, instanceSlot st name = some i → get_instance st name d v = (st, some i)) ∧
    get_instance (get_instance st name d v).1 name d v = get_instance st name d v := by
  refine ⟨fun i hi => get_instance_cached st name d v i hi, ?_⟩
  obtain ⟨h1, h2⟩ := instanceSlot_get_instance_self st name d v
  obtain ⟨j, hj⟩ := Option.isSome_iff_exists.mp h2
  rw [get_instance_cached _ name d v j (h1.trans hj)]
  conv_rhs => rw [show get_instance st name d v
    = ((get_instance st name d v).1, (get_instance st name d v).2) from rfl]
  rw [hj]

theorem get_instance_idempotent_witness :
    instanceSlot sampleState none = some 0 ∧
    get_instance sampleState none false false = (sampleState, some 0) :=
  ⟨by decide, (get_instance_idempotent sampleState none false false).1 0 (by decide)⟩

/-- C3: after `LogManager(name, ...)` completes, the process-wide registry
maps that name (the default slot for `None`, the named mapping otherwise)
to the newly constructed instance, and no operation removes an entry from
the registry: every registered name stays registered across every
operation. -/
theorem registry_maps_new_instance (st : GState) (name : Option String)
    (e d : Option String) (r : Bool) :
    instanceSlot (LogManager_init st name e d r).1 name
      = some (LogManager_init st name e d r).2 ∧
    ∀ (op : Op) (st2 : GState) (n : Option String),
      (instanceSlot st2 n).isSome = true → (instanceSlot (step st2 op) n).isSome = true := by
  constructor
  · rw [LogManager_init_mid]
    exact instanceSlot_init_self st name e d r
  · intro op st2 n h
    cases op with
    | construct nm ef df rh => exact instanceSlot_init_mono st2 nm n ef df rh h
    | getInst nm dbg vb => exact instanceSlot_get_instance_mono st2 nm dbg vb n h
    | addH mid dest lvl f df filt rot fk =>
      simpa [step, instanceSlot_add_handler] using h
    | initStream mid dd vv => simpa [step, instanceSlot_stream_init] using h
    | initFile mid dd vv p => simpa [step, instanceSlot_init_default_logger] using h
    | addLvl mid num lnm fnm => simpa [step, instanceSlot_add_level] using h

theorem registry_maps_new_instance_witness :
    (instanceSlot sampleState none).isSome = true ∧
    (instanceSlot (step sampleState (Op.addLvl 0 21 "NOTICE2" none)) none).isSome = true :=
  ⟨by decide,
   (registry_maps_new_instance (initialState "UTC") none none none true).2
     (Op.addLvl 0 21 "NOTICE2" none) sampleState none (by decide)⟩

/-! ## Handler-list lemmas -/

theorem alookup_eq_none_of_acontains_false [DecidableEq α] (l : List (α × β)) (k : α)
    (h : acontains k l = false) : alookup k l = none := by
  cases hl : alookup k l with
  | none => rfl
  | some v => simp [acontains, hl] at h

theorem getLoggerRec_handlers (st : GState) (nm : Option String) :
    (getLoggerRec st nm).handlers = loggerHandlers st nm := rfl

theorem loggerHandlers_updateLogger (st : GState) (nm : Option String)
    (f : LoggerRec → LoggerRec) (n : Option String) :
    loggerHandlers (updateLogger st nm f) n
      = if n = nm then (f (getLoggerRec st nm)).handlers else loggerHandlers st n := by
  by_cases h : n = nm
  · subst h
    simp [loggerHandlers, getLoggerRec, updateLogger, alookup_aset_self]
  · simp [loggerHandlers, getLoggerRec, updateLogger, h,
          alookup_aset_other st.loggers nm n _ h]

theorem loggerHandlers_ensureLogger (st : GState) (nm n : Option String) :
    loggerHandlers (ensureLogger st nm) n = loggerHandlers st n := by
  unfold ensureLogger
  by_cases hc : acontains nm st.loggers = true
  · rw [if_pos hc]
  · rw [if_neg hc]
    by_cases hn : n = nm
    · subst hn
      have h0 := alookup_eq_none_of_acontains_false st.loggers n (by simpa using hc)
      simp [loggerHandlers, getLoggerRec,
            alookup_append_right st.loggers _ n (by simpa using hc), h0, alookup]
    · simp [loggerHandlers, getLoggerRec, alookup_append_ne st.loggers nm n _ hn]

theorem loggerHandlers_ite (c : Prop) [Decidable c] (a b : GState) (n : Option String) :
    loggerHandlers (if c then a else b) n
      = if c then loggerHandlers a n else loggerHandlers b n := by
  split <;> rfl

theorem loggerHandlers_congr (st1 st2 : GState) (h : st1.loggers = st2.loggers)
    (n : Option String) : loggerHandlers st1 n = loggerHandlers st2 n := by
  simp [loggerHandlers, getLoggerRec, h]

theorem loggerHandlers_set_instance (st : GState) (nm : Option String) (mid : Nat)
    (n : Option String) :
    loggerHandlers (_set_instance st nm mid) n = loggerHandlers st n :=
  loggerHandlers_congr _ _ (_set_instance_loggers st nm mid) n

theorem loggerHandlers_add_level (st : GState) (mid : Nat) (num : Int) (lnm : String)
    (fn : Option String) (n : Option String) :
    loggerHandlers (add_level st mid num lnm fn).1 n = loggerHandlers st n :=
  loggerHandlers_congr _ _ (add_level_loggers st mid num lnm fn) n

theorem loggerHandlers_set_managers (st : GState) (m : List (Nat × LMData)) (k : Nat)
    (n : Option String) :
    loggerHandlers { st with managers := m, nextMid := k } n = loggerHandlers st n := rfl

theorem LogManager_init_nextHid (st : GState) (n : Option String) (e d : Option String)
    (r : Bool) : (LogManager_init st n e d r).1.nextHid = st.nextHid := by
  unfold LogManager_init LogManager_init_core
  simp only [ignore_swallow_add_level, Option.isSome_none, Bool.false_eq_true, if_false,
             _set_instance_nextHid, ignore_exceptions_fst, add_level_nextHid,
             updateLogger_nextHid, ensureLogger_nextHid, GState_ite_nextHid, ite_self]

theorem LogManager_init_loggerHandlers (st : GState) (n : Option String)
    (e d : Option String) (r : Bool) (nm : Option String) :
    loggerHandlers (LogManager_init st n e d r).1 nm
      = if r = true ∧ nm = n then [] else loggerHandlers st nm := by
  unfold LogManager_init LogManager_init_core
  simp only [ignore_swallow_add_level, Option.isSome_none, Bool.false_eq_true, if_false,
             loggerHandlers_set_instance, ignore_exceptions_fst, loggerHandlers_add_level,
             loggerHandlers_set_managers, loggerHandlers_updateLogger,
             loggerHandlers_ensureLogger, loggerHandlers_ite, getLoggerRec_handlers]
  by_cases hnm : nm = n
  · subst hnm
    by_cases hr : r = true
    · simp [hr]
    · simp [hr]
      intro _ _ h3
      rw [h3]
  · by_cases hr : r = true
    · simp [hnm, hr]
      intro _ _ h3
      rw [h3]
    · simp [hnm, hr]
      intro _ _ h3
      rw [h3]

/-- The handler record `add_handler` constructs from its arguments and the
instance's defaults. -/
def builtHandler (st : GState) (dest : Destination) (level : Int)
    (fmt dateFmt : Option String) (filt : Option (Int → Bool)) (rot : Bool)
    (fmtk : Option FormatterK) (lm : LMData) : Handler :=
  { hid := st.nextHid,
    kind := match dest with
            | .stream s => HKind.stream s
            | .path p => if rot then HKind.timedRotatingFile p else HKind.file p,
    level := level,
    entryFmt := fmt.getD lm.entryFormat,
    dateFmt := tzAdjustDateFmt st.tz lm.tzAliases (dateFmt.getD lm.dateFormat),
    fmtk := fmtk.getD FormatterK.plain,
    filter := filt }

theorem add_handler_eq (st : GState) (mid : Nat) (dest : Destination) (level : Int)
    (fmt dateFmt : Option String) (filt : Option (Int → Bool)) (rot : Bool)
    (fmtk : Option FormatterK) (lm : LMData) (h : alookup mid st.managers = some lm) :
    add_handler st mid dest level fmt dateFmt filt rot fmtk
      = updateLogger { st with nextHid := st.nextHid + 1 } lm.lmName
          (fun lg => { lg with
            handlers := lg.handlers ++ [builtHandler st dest level fmt dateFmt filt rot fmtk lm] }) := by
  unfold add_handler builtHandler
  rw [h]

theorem add_handler_none (st : GState) (mid : Nat) (dest : Destination) (level : Int)
    (fmt dateFmt : Option String) (filt : Option (Int → Bool)) (rot : Bool)
    (fmtk : Option FormatterK) (h : alookup mid st.managers = none) :
    add_handler st mid dest level fmt dateFmt filt rot fmtk = st := by
  unfold add_handler
  rw [h]

theorem add_handler_loggerHandlers (st : GState) (mid : Nat) (dest : Destination)
    (level : Int) (fmt dateFmt : Option String) (filt : Option (Int → Bool)) (rot : Bool)
    (fmtk : Option FormatterK) (lm : LMData) (h : alookup mid st.managers = some lm)
    (n : Option String) :
    loggerHandlers (add_handler st mid dest level fmt dateFmt filt rot fmtk) n
      = if n = lm.lmName then
          loggerHandlers st lm.lmName
            ++ [builtHandler st dest level fmt dateFmt filt rot fmtk lm]
        else loggerHandlers st n := by
  rw [add_handler_eq st mid dest level fmt dateFmt filt rot fmtk lm h,
      loggerHandlers_updateLogger]
  by_cases hn : n = lm.lmName
  · rw [if_pos hn, if_pos hn]
    rfl
  · rw [if_neg hn, if_neg hn]
    rfl

theorem add_handler_nextHid_some (st : GState) (mid : Nat) (dest : Destination)
    (level : Int) (fmt dateFmt : Option String) (filt : Option (Int → Bool)) (rot : Bool)
    (fmtk : Option FormatterK) (lm : LMData) (h : alookup mid st.managers = some lm) :
    (add_handler st mid dest level fmt dateFmt filt rot fmtk).nextHid = st.nextHid + 1 := by
  rw [add_handler_eq st mid dest level fmt dateFmt filt rot fmtk lm h]
  rfl

/-! ## Claim C4 -/

/-- C4: `add_handler(destination, level, ...)` appends exactly one new
handler to the managed logger and leaves every other logger unchanged; the
new handler is a stream handler when the destination has a `write`
attribute, a timed rotating file handler when `rotate` is true and a plain
file handler otherwise; its threshold is the given `level` and its
formatter is built from the given-or-default entry format and the
given-or-default date format (timezone-alias adjusted), independently of
any previously attached handler: the appended record is a function of the
arguments and the instance's defaults only. -/
theorem add_handler_appends_one (st : GState) (mid : Nat) (dest : Destination) (level : Int)
    (fmt dateFmt : Option String) (filt : Option (Int → Bool)) (rot : Bool)
    (fmtk : Option FormatterK) (lm : LMData) (h : alookup mid st.managers = some lm) :
    loggerHandlers (add_handler st mid dest level fmt dateFmt filt rot fmtk) lm.lmName
      = loggerHandlers st lm.lmName
        ++ [{ hid := st.nextHid,
              kind := match dest with
                      | .stream s => HKind.stream s
                      | .path p => if rot then HKind.timedRotatingFile p else HKind.file p,
              level := level,
              entryFmt := fmt.getD lm.entryFormat,
              dateFmt := tzAdjustDateFmt st.tz lm.tzAliases (dateFmt.getD lm.dateFormat),
              fmtk := fmtk.getD FormatterK.plain,
              filter := filt }] ∧
    ∀ n, n ≠ lm.lmName →
      loggerHandlers (add_handler st mid dest level fmt dateFmt filt rot fmtk) n
        = loggerHandlers st n := by
  constructor
  · have := add_handler_loggerHandlers st mid dest level fmt dateFmt filt rot fmtk lm h
      lm.lmName
    rw [if_pos rfl] at this
    exact this
  · intro n hn
    have := add_handler_loggerHandlers st mid dest level fmt dateFmt filt rot fmtk lm h n
    rwa [if_neg hn] at this

theorem add_handler_appends_one_witness :
    (alookup 0 sampleState.managers = some sampleLM) ∧
    ((some "x" : Option String) ≠ sampleLM.lmName) ∧
    (loggerHandlers
        (add_handler sampleState 0 (Destination.path "/var/tmp/x.log") 10 none none none
          false none) sampleLM.lmName
      = loggerHandlers sampleState sampleLM.lmName
        ++ [{ hid := sampleState.nextHid,
              kind := HKind.file "/var/tmp/x.log",
              level := 10,
              entryFmt := (none : Option String).getD sampleLM.entryFormat,
              dateFmt := tzAdjustDateFmt sampleState.tz sampleLM.tzAliases
                ((none : Option String).getD sampleLM.dateFormat),
              fmtk := FormatterK.plain,
              filter := none }]) ∧
    loggerHandlers
        (add_handler sampleState 0 (Destination.path "/var/tmp/x.log") 10 none none none
          false none) (some "x")
      = loggerHandlers sampleState (some "x") :=
  ⟨by decide, by decide,
   (add_handler_appends_one sampleState 0 (Destination.path "/var/tmp/x.log") 10 none none
      none false none sampleLM (by decide)).1,
   (add_handler_appends_one sampleState 0 (Destination.path "/var/tmp/x.log") 10 none none
      none false none sampleLM (by decide)).2 (some "x") (by decide)⟩

/-! ## Claim C8 -/

/-- C8: after `init_default_stream_logger`, the two handlers it attaches
(stdout then stderr) carry the two `create_filter` filters, and these
partition all record levels: a level passes the stderr filter exactly when
it is at least `WARNING = 30`, passes the stdout filter exactly when it is
strictly below 30, and satisfies exactly one of the two. -/
theorem init_default_stream_logger_filters (st : GState) (mid : Nat) (d v : Bool)
    (lm : LMData) (h : alookup mid st.managers = some lm) :
    (∃ h1 h2 : Handler,
      loggerHandlers (init_default_stream_logger st mid d v) lm.lmName
        = loggerHandlers st lm.lmName ++ [h1, h2] ∧
      h1.filter = some (create_filter stdoutFilterFn) ∧
      h2.filter = some (create_filter stderrFilterFn)) ∧
    ∀ lvl : Int,
      (create_filter stderrFilterFn lvl = true ↔ 30 ≤ lvl) ∧
      (create_filter stdoutFilterFn lvl = true ↔ lvl < 30) ∧
      create_filter stderrFilterFn lvl = ! create_filter stdoutFilterFn lvl := by
  constructor
  · unfold init_default_stream_logger
    have h2m : alookup mid
        (add_handler st mid (Destination.stream "stdout")
          (if v = true then getLevelNameNum st "VERBOSE" else if d = true then (10 : Int) else 20)
          none none (some (create_filter stdoutFilterFn)) true none).managers = some lm := by
      rw [add_handler_managers]
      exact h
    refine ⟨builtHandler st (Destination.stream "stdout")
        (if v = true then getLevelNameNum st "VERBOSE" else if d = true then (10 : Int) else 20)
        none none (some (create_filter stdoutFilterFn)) true none lm,
      builtHandler (add_handler st mid (Destination.stream "stdout")
          (if v = true then getLevelNameNum st "VERBOSE" else if d = true then (10 : Int) else 20)
          none none (some (create_filter stdoutFilterFn)) true none)
        (Destination.stream "stderr") 20 (some "%(levelname)s %(message)s") none
        (some (create_filter stderrFilterFn)) true (some FormatterK.red) lm, ?_, rfl, rfl⟩
    rw [add_handler_loggerHandlers _ mid _ _ _ _ _ _ _ lm h2m lm.lmName, if_pos rfl,
        add_handler_loggerHandlers st mid _ _ _ _ _ _ _ lm h lm.lmName, if_pos rfl,
        List.append_assoc]
    rfl
  · intro lvl
    refine ⟨?_, ?_, ?_⟩
    · simp [create_filter, stderrFilterFn]
    · simp [create_filter, stdoutFilterFn]
    · simp only [create_filter, stderrFilterFn, stdoutFilterFn]
      by_cases h30 : 30 ≤ lvl
      · rw [decide_eq_true h30, decide_eq_false (by omega : ¬ lvl < 30)]
        rfl
      · rw [decide_eq_false h30, decide_eq_true (by omega : lvl < 30)]
        rfl

theorem init_default_stream_logger_filters_witness :
    (alookup 0 sampleState.managers = some sampleLM) ∧
    ((∃ h1 h2 : Handler,
      loggerHandlers (init_default_stream_logger sampleState 0 false false) sampleLM.lmName
        = loggerHandlers sampleState sampleLM.lmName ++ [h1, h2] ∧
      h1.filter = some (create_filter stdoutFilterFn) ∧
      h2.filter = some (create_filter stderrFilterFn)) ∧
    ∀ lvl : Int,
      (create_filter stderrFilterFn lvl = true ↔ 30 ≤ lvl) ∧
      (create_filter stdoutFilterFn lvl = true ↔ lvl < 30) ∧
      create_filter stderrFilterFn lvl = ! create_filter stdoutFilterFn lvl) :=
  ⟨by decide, init_default_stream_logger_filters sampleState 0 false false sampleLM (by decide)⟩

/-! ## Claim C5 -/

/-- The no-double-registration invariant: every handler attached to any
logger was created before the current handler counter, and no logger holds
the same handler object twice. -/
def HandlersOk (st : GState) : Prop :=
  ∀ n : Option String,
    (∀ hd ∈ loggerHandlers st n, hd.hid < st.nextHid) ∧
    ((loggerHandlers st n).map Handler.hid).Nodup

theorem handlersOk_initial (tz : String) : HandlersOk (initialState tz) := by
  intro n
  cases n <;> simp [loggerHandlers, getLoggerRec, initialState, alookup]

theorem handlersOk_of_eq (st1 st2 : GState)
    (hl : ∀ n, loggerHandlers st2 n = loggerHandlers st1 n)
    (hn : st2.nextHid = st1.nextHid) (h : HandlersOk st1) : HandlersOk st2 := by
  intro n
  rw [hl n, hn]
  exact h n

theorem handlersOk_add_handler (st : GState) (mid : Nat) (dest : Destination) (level : Int)
    (fmt dateFmt : Option String) (filt : Option (Int → Bool)) (rot : Bool)
    (fmtk : Option FormatterK) (h : HandlersOk st) :
    HandlersOk (add_handler st mid dest level fmt dateFmt filt rot fmtk) := by
  cases hl : alookup mid st.managers with
  | none =>
    rw [add_handler_none st mid dest level fmt dateFmt filt rot fmtk hl]
    exact h
  | some lm =>
    intro n
    rw [add_handler_loggerHandlers st mid dest level fmt dateFmt filt rot fmtk lm hl n,
        add_handler_nextHid_some st mid dest level fmt dateFmt filt rot fmtk lm hl]
    by_cases hn : n = lm.lmName
    · rw [if_pos hn]
      constructor
      · intro hd hmem
        rcases List.mem_append.mp hmem with hm | hm
        · exact Nat.lt_succ_of_lt ((h lm.lmName).1 hd hm)
        · have he : hd = builtHandler st dest level fmt dateFmt filt rot fmtk lm := by
            simpa using hm
          rw [he]
          exact Nat.lt_succ_self st.nextHid
      · rw [List.map_append]
        refine List.Nodup.append (h lm.lmName).2 (by simp) ?_
        intro a ha hb
        rcases List.mem_map.mp ha with ⟨hd, hdmem, rfl⟩
        have hb2 : hd.hid = st.nextHid := by simpa [builtHandler] using hb
        have hlt := (h lm.lmName).1 hd hdmem
        omega
    · rw [if_neg hn]
      exact ⟨fun hd hmem => Nat.lt_succ_of_lt ((h n).1 hd hmem), (h n).2⟩

theorem handlersOk_init (st : GState) (n : Option String) (e d : Option String) (r : Bool)
    (h : HandlersOk st) : HandlersOk (LogManager_init st n e d r).1 := by
  intro nm
  rw [LogManager_init_loggerHandlers st n e d r nm, LogManager_init_nextHid st n e d r]
  by_cases hc : r = true ∧ nm = n
  · rw [if_pos hc]
    exact ⟨by simp, by simp⟩
  · rw [if_neg hc]
    exact h nm

theorem handlersOk_stream_init (st : GState) (mid : Nat) (d v : Bool) (h : HandlersOk st) :
    HandlersOk (init_default_stream_logger st mid d v) := by
  unfold init_default_stream_logger
  exact handlersOk_add_handler _ _ _ _ _ _ _ _ _
    (handlersOk_add_handler _ _ _ _ _ _ _ _ _ h)

theorem handlersOk_file_init (st : GState) (mid : Nat) (d v : Bool) (p : String)
    (h : HandlersOk st) : HandlersOk (init_default_logger st mid d v p) := by
  unfold init_default_logger
  exact handlersOk_add_handler _ _ _ _ _ _ _ _ _ (handlersOk_stream_init st mid d v h)

theorem handlersOk_create (st : GState) (d v : Bool) (name : Option String)
    (e f : Option String) (r : Bool) (h : HandlersOk st) :
    HandlersOk (create_default_stream_logger st d v name e f r).1 := by
  unfold create_default_stream_logger
  exact handlersOk_stream_init _ _ d v (handlersOk_init st name e f r h)

theorem handlersOk_get_instance (st : GState) (m : Option String) (d v : Bool)
    (h : HandlersOk st) : HandlersOk (get_instance st m d v).1 := by
  cases m with
  | none =>
    cases hdi : st.defaultInstance with
    | some i => simpa [get_instance, hdi] using h
    | none =>
      simp only [get_instance, hdi]
      exact handlersOk_create st d v none none none true h
  | some x =>
    by_cases hc : acontains x st.instances = true
    · simpa [get_instance, hc] using h
    · simp only [get_instance, if_neg hc]
      exact handlersOk_create st d v (some x) none none true h

theorem handlersOk_add_level (st : GState) (mid : Nat) (num : Int) (nm : String)
    (fn : Option String) (h : HandlersOk st) : HandlersOk (add_level st mid num nm fn).1 :=
  handlersOk_of_eq st (add_level st mid num nm fn).1
    (fun n => loggerHandlers_add_level st mid num nm fn n)
    (add_level_nextHid st mid num nm fn) h

theorem handlersOk_step (s : GState) (op : Op) (h : HandlersOk s) : HandlersOk (step s op) := by
  cases op with
  | construct n e d r => exact handlersOk_init s n e d r h
  | getInst n dbg v => exact handlersOk_get_instance s n dbg v h
  | addH mid dest lvl f df filt rot fk =>
    exact handlersOk_add_handler s mid dest lvl f df filt rot fk h
  | initStream mid d v => exact handlersOk_stream_init s mid d v h
  | initFile mid d v p => exact handlersOk_file_init s mid d v p h
  | addLvl mid num nm fn => exact handlersOk_add_level s mid num nm fn h

theorem handlersOk_run (tz : String) (ops : List Op) : HandlersOk (run tz ops) := by
  unfold run
  have H : ∀ s : GState, HandlersOk s → HandlersOk (List.foldl step s ops) := by
    induction ops with
    | nil => intro s hs; exact hs
    | cons op t ih =>
      intro s hs
      exact ih _ (handlersOk_step s op hs)
  exact H _ (handlersOk_initial tz)

/-- C5: across every sequence of `LogManager` operations (construction,
`get_instance`, `add_handler`, `init_default_stream_logger`,
`init_default_logger`, `add_level`) started from a fresh process, no
logger ever holds the same handler twice: every handler object is created
fresh by `add_handler` and registered once, so the handler lists of all
loggers stay duplicate-free. -/
theorem handlers_never_double_registered (tz : String) (ops : List Op)
    (name : Option String) :
    ((loggerHandlers (run tz ops) name).map Handler.hid).Nodup :=
  (handlersOk_run tz ops name).2

/-! ## Claim C7: HTML escaping is injective -/

/-- The characters `html.escape` replaces. -/
def specials : List Char := ['&', '<', '>', '"', apos]

theorem escChar_amp : escChar '&' = ['&', 'a', 'm', 'p', ';'] := rfl

theorem escChar_lt2 : escChar '<' = ['&', 'l', 't', ';'] := rfl

theorem escChar_gt2 : escChar '>' = ['&', 'g', 't', ';'] := rfl

theorem escChar_quot : escChar '"' = ['&', 'q', 'u', 'o', 't', ';'] := rfl

theorem escChar_apos : escChar apos = ['&', '#', 'x', '2', '7', ';'] := rfl

theorem escChar_of_not_special (c : Char) (h : c ∉ specials) : escChar c = [c] := by
  simp only [specials, List.mem_cons, List.not_mem_nil, or_false, not_or] at h
  obtain ⟨h1, h2, h3, h4, h5⟩ := h
  simp [escChar, h1, h2, h3, h4, h5]

theorem escChar_head_amp (c : Char) (h : c ∈ specials) :
    ∃ rest, escChar c = '&' :: rest := by
  simp only [specials, List.mem_cons, List.not_mem_nil, or_false] at h
  rcases h with rfl | rfl | rfl | rfl | rfl
  · exact ⟨_, escChar_amp⟩
  · exact ⟨_, escChar_lt2⟩
  · exact ⟨_, escChar_gt2⟩
  · exact ⟨_, escChar_quot⟩
  · exact ⟨_, escChar_apos⟩

theorem escChar_ne_nil (c : Char) : escChar c ≠ [] := by
  by_cases h : c ∈ specials
  · obtain ⟨rest, hr⟩ := escChar_head_amp c h
    simp [hr]
  · simp [escChar_of_not_special c h]

theorem escChar_append_inj (a b : Char) (ra rb : List Char)
    (h : escChar a ++ ra = escChar b ++ rb) : a = b ∧ ra = rb := by
  by_cases hsa : a ∈ specials <;> by_cases hsb : b ∈ specials
  · have hA := hsa
    have hB := hsb
    simp only [specials, List.mem_cons, List.not_mem_nil, or_false] at hA hB
    rcases hA with rfl | rfl | rfl | rfl | rfl <;>
      rcases hB with rfl | rfl | rfl | rfl | rfl <;>
        first
          | exact ⟨rfl, List.append_cancel_left h⟩
          | (exfalso
             simp only [escChar_amp, escChar_lt2, escChar_gt2, escChar_quot, escChar_apos,
               List.cons_append] at h
             injection h with h1 h
             injection h with h2 h
             exact absurd h2 (by decide))
  · exfalso
    obtain ⟨rest, hra⟩ := escChar_head_amp a hsa
    rw [hra, escChar_of_not_special b hsb] at h
    simp only [List.cons_append, List.singleton_append] at h
    injection h with h1 h
    have hb : b ≠ '&' := by
      intro heq
      rw [heq] at hsb
      exact hsb (by simp [specials])
    exact hb h1.symm
  · exfalso
    obtain ⟨rest, hrb⟩ := escChar_head_amp b hsb
    rw [hrb, escChar_of_not_special a hsa] at h
    simp only [List.cons_append, List.singleton_append] at h
    injection h with h1 h
    have ha : a ≠ '&' := by
      intro heq
      rw [heq] at hsa
      exact hsa (by simp [specials])
    exact ha h1
  · rw [escChar_of_not_special a hsa, escChar_of_not_special b hsb] at h
    simp only [List.singleton_append] at h
    injection h with h1 h2
    exact ⟨h1, h2⟩

theorem escList_inj (s : List Char) : ∀ t : List Char,
    s.flatMap escChar = t.flatMap escChar → s = t := by
  induction s with
  | nil =>
    intro t h
    cases t with
    | nil => rfl
    | cons b tb =>
      rw [List.flatMap_nil, List.flatMap_cons] at h
      exact absurd h.symm (by simp [escChar_ne_nil b])
  | cons a ta ih =>
    intro t h
    cases t with
    | nil =>
      rw [List.flatMap_nil, List.flatMap_cons] at h
      exact absurd h (by simp [escChar_ne_nil a])
    | cons b tb =>
      rw [List.flatMap_cons, List.flatMap_cons] at h
      obtain ⟨hab, hrest⟩ := escChar_append_inj a b _ _ h
      rw [hab, ih tb hrest]

theorem html_escape_inj : Function.Injective html_escape := by
  intro s t h
  unfold html_escape at h
  have hd : s.data.flatMap escChar = t.data.flatMap escChar := congrArg String.data h
  exact String.ext (escList_inj s.data t.data hd)

/-! ## Claim C7: the row-content fold -/

theorem aset_append_of_not_contains [DecidableEq α] (l : List (α × β)) (k : α) (v : β)
    (h : acontains k l = false) : aset l k v = l ++ [(k, v)] := by
  unfold aset
  rw [if_neg (by simp [h])]

theorem pySorted_perm (ks : List String) : (pySorted ks).Perm ks :=
  List.perm_insertionSort _ ks

theorem rowContentFold_go (req : List (String × String)) : ∀ (ks : List String)
    (acc : List (String × String)),
    (ks.map html_escape).Nodup →
    (∀ k ∈ ks, acontains (html_escape k) acc = false) →
    ks.foldl (fun acc k =>
        aset acc (html_escape k) (html_escape ((alookup k req).getD ""))) acc
      = acc ++ ks.map (fun k => (html_escape k, html_escape ((alookup k req).getD ""))) := by
  intro ks
  induction ks with
  | nil =>
    intro acc _ _
    simp
  | cons k kt ih =>
    intro acc hnd hfresh
    simp only [List.foldl_cons, List.map_cons]
    rw [aset_append_of_not_contains acc _ _ (hfresh k (by simp))]
    rw [ih (acc ++ [(html_escape k, html_escape ((alookup k req).getD ""))]) ?tailnodup ?fresh]
    case tailnodup => exact (List.nodup_cons.mp (by simpa using hnd)).2
    case fresh =>
      intro j hj
      have h1 : acontains (html_escape j) acc = false := hfresh j (List.mem_cons_of_mem _ hj)
      have hne : html_escape j ≠ html_escape k := by
        intro he
        have hmem : html_escape j ∈ kt.map html_escape := List.mem_map_of_mem _ hj
        rw [he] at hmem
        exact (List.nodup_cons.mp (by simpa using hnd)).1 hmem
      unfold acontains
      rw [alookup_append_ne acc (html_escape k) (html_escape j) _ hne]
      exact h1
    simp

theorem rowContentFold_eq (req : List (String × String)) (ks : List String)
    (hnd : (ks.map html_escape).Nodup) :
    rowContentFold req ks
      = ks.map (fun k => (html_escape k, html_escape ((alookup k req).getD ""))) := by
  unfold rowContentFold
  have := rowContentFold_go req ks [] hnd (fun k _ => rfl)
  simpa using this

/-- C7: the demo server registers exactly one route — `GET` on `"/"` — and
its handler returns an HTML response (`content_type` `text/html`) whose
body echoes the request metadata: one table row per attribute of the
request, attribute names in sorted order, both names and values
HTML-escaped (and the request counter is incremented). -/
theorem get_root_echoes_request (req : List (String × String)) (c : Nat)
    (h : (req.map Prod.fst).Nodup) :
    web_routes = [("/", [("GET", "get_root")])] ∧
    serverRoutes = [("GET", "/", "get_root")] ∧
    (get_root req c).1.contentType = "text/html" ∧
    (get_root req c).1.text = get_root_text_spec req ∧
    (get_root req c).2 = c + 1 := by
  refine ⟨by decide, by decide, rfl, ?_, rfl⟩
  have hnd : ((pySorted (req.map Prod.fst)).map html_escape).Nodup :=
    List.Nodup.map html_escape_inj ((pySorted_perm (req.map Prod.fst)).symm.nodup h)
  simp only [get_root, get_root_text_spec]
  rw [rowContentFold_eq req (pySorted (req.map Prod.fst)) hnd, List.map_map]
  rfl

theorem get_root_echoes_request_witness :
    (([("b", "1"), ("a", "<x>")].map (Prod.fst (α := String) (β := String))).Nodup) ∧
    (web_routes = [("/", [("GET", "get_root")])] ∧
     serverRoutes = [("GET", "/", "get_root")] ∧
     (get_root [("b", "1"), ("a", "<x>")] 0).1.contentType = "text/html" ∧
     (get_root [("b", "1"), ("a", "<x>")] 0).1.text
       = get_root_text_spec [("b", "1"), ("a", "<x>")] ∧
     (get_root [("b", "1"), ("a", "<x>")] 0).2 = 0 + 1) :=
  ⟨by decide, get_root_echoes_request [("b", "1"), ("a", "<x>")] 0 (by decide)⟩

end AsyncioHttp
